import Mathlib

/-!
Verification development for the walletbase ledger core.

The Rust sources under src/ are shallowly embedded: pure functions become
Lean functions on `Int` (i64 is modelled as unbounded `Int`; none of the
verified properties depend on wrap-around), fallible functions return
`Except Err`, and the database interactions of `prepare` / `commit` /
`Credit::save` / `Charge::update` are modelled by explicit state passing,
with the conditional-write (CAS) outcomes that depend on concurrent peers
exposed as boolean parameters.  The 32-bit float fee arithmetic of
`fee_and_shares` is modelled by exact rational arithmetic with the Rust
`as i64` cast rendered as truncation toward zero.
-/

deriving instance DecidableEq for Except

namespace Walletbase

/-- A 12-byte xid is modelled as a natural number; the reserved all-zero id is `0`. -/
abbrev Id := Nat

/-- model_wallet.rs: `pub const SYS_ID: xid::Id = xid::Id([0u8; 12]);` -/
def SYS_ID : Id := 0

/-- model_transaction.rs: `const MAX_OVERDRAW: i64 = 100;` -/
def MAX_OVERDRAW : Int := 100

/-- model_wallet.rs: `pub const SYS_FEE_RATE: f32 = 0.001;`
The rate constant is transcribed as the exact rational 1/1000, written as a
reduced numerator/denominator literal so that fee computations evaluate by
kernel reduction. -/
def SYS_FEE_RATE : Rat := ⟨1, 1000, by norm_num, by norm_num⟩

/-- Error kinds surfaced by the embedded core; each constructor stands for one
of the distinct HTTPError / anyhow error sites of the Rust code (a Rust
`assert!` or `panic!` is rendered as `panicked`). -/
inductive Err where
  | invalidAmount
  | invalidPayer
  | invalidPayee
  | invalidSubPayee
  | invalidTransaction
  | invalidKind
  | invalidField
  | creditsRequired
  | insufficientBalance
  | checksumMismatch
  | alreadyInitialized
  | statusConflict
  | prepareFailed
  | commitFailed
  | commitPartial
  | noFieldsToUpdate
  | failureCodeWithoutStatus
  | invalidStatus
  | panicked
deriving Repr, DecidableEq

/-- model_wallet.rs: struct `Wallet`.  The `checksum` blob is a list of bytes;
the HMAC itself is an abstract parameter (see `HMacTag`). -/
structure Wallet where
  uid : Id
  sequence : Int
  award : Int
  topup : Int
  income : Int
  credits : Int
  txn : Id
  checksum : List Nat
deriving Repr, DecidableEq

/-- model_wallet.rs: `Wallet::with_pk` (all other fields `Default`, i.e. zero). -/
def Wallet.with_pk (uid : Id) : Wallet :=
  { uid := uid, sequence := 0, award := 0, topup := 0, income := 0,
    credits := 0, txn := 0, checksum := [] }

/-- model_wallet.rs: `Wallet::is_system` (`self.uid.is_zero()`). -/
def Wallet.is_system (w : Wallet) : Prop := w.uid = SYS_ID

instance (w : Wallet) : Decidable w.is_system := by
  unfold Wallet.is_system; infer_instance

/-- model_wallet.rs: `Wallet::balance` (`self.award + self.topup + self.income`). -/
def Wallet.balance (w : Wallet) : Int := w.award + w.topup + w.income

/-- model_wallet.rs: `income_fee_rate`, a step function on the credits bracket.
The f32 constants 0.3, 0.27, ... are transcribed as exact rationals, written
as reduced numerator/denominator literals so that fee computations evaluate
by kernel reduction. -/
def income_fee_rate (credits : Int) : Rat :=
  if credits ≤ 9999 then ⟨3, 10, by norm_num, by norm_num⟩
  else if credits ≤ 99999 then ⟨27, 100, by norm_num, by norm_num⟩        -- LV4
  else if credits ≤ 999999 then ⟨6, 25, by norm_num, by norm_num⟩         -- LV5, 0.24
  else if credits ≤ 9999999 then ⟨21, 100, by norm_num, by norm_num⟩      -- LV6
  else if credits ≤ 99999999 then ⟨9, 50, by norm_num, by norm_num⟩       -- LV7, 0.18
  else if credits ≤ 999999999 then ⟨3, 20, by norm_num, by norm_num⟩      -- LV8, 0.15
  else if credits ≤ 9999999999 then ⟨3, 25, by norm_num, by norm_num⟩     -- LV9, 0.12
  else if credits ≤ 99999999999 then ⟨9, 100, by norm_num, by norm_num⟩   -- LV10, 0.09
  else ⟨9, 100, by norm_num, by norm_num⟩

/-- Rust `(x as f32 * r) as i64` for an i64 value `x` and a rate constant `r`,
modelled exactly: the rational product `x * r` truncated toward zero.  Since
every rate is a reduced fraction `num / den` with `den > 0`, that truncation
is the truncating integer division of `x * num` by `den`. -/
def f32_mul_as_i64 (x : Int) (r : Rat) : Int :=
  (x * r.num).tdiv r.den

/-- model_transaction.rs: enum `TransactionKind`. -/
inductive TransactionKind where
  | award
  | topup
  | refund
  | withdraw
  | spend
  | sponsor
  | subscribe
deriving Repr, DecidableEq

/-- model_transaction.rs: strum lowercase serialization (`as_ref` / `to_string`). -/
def TransactionKind.as_ref : TransactionKind → String
  | .award => "award"
  | .topup => "topup"
  | .refund => "refund"
  | .withdraw => "withdraw"
  | .spend => "spend"
  | .sponsor => "sponsor"
  | .subscribe => "subscribe"

/-- model_transaction.rs: strum `from_str` over the lowercase labels. -/
def TransactionKind.from_str : String → Option TransactionKind
  | "award" => some .award
  | "topup" => some .topup
  | "refund" => some .refund
  | "withdraw" => some .withdraw
  | "spend" => some .spend
  | "sponsor" => some .sponsor
  | "subscribe" => some .subscribe
  | _ => none

/-- model_transaction.rs: `TransactionKind::check_payer`. -/
def TransactionKind.check_payer (k : TransactionKind) (uid : Id) : Except Err Unit :=
  match k with
  | .award | .topup => if uid ≠ SYS_ID then .error .invalidPayer else .ok ()
  | _ => if uid = SYS_ID then .error .invalidPayer else .ok ()

/-- model_transaction.rs: `TransactionKind::check_payee`. -/
def TransactionKind.check_payee (k : TransactionKind) (uid : Id) : Except Err Unit :=
  match k with
  | .spend | .withdraw | .refund => if uid ≠ SYS_ID then .error .invalidPayee else .ok ()
  | _ => if uid = SYS_ID then .error .invalidPayee else .ok ()

/-- model_transaction.rs: `TransactionKind::check_sub_payee`. -/
def TransactionKind.check_sub_payee (k : TransactionKind) (_uid : Id) : Except Err Unit :=
  match k with
  | .sponsor | .subscribe => .ok ()
  | _ => .error .invalidSubPayee

/-- model_transaction.rs, `sub_payer_balance`, Spend / Sponsor / Subscribe arm:
consume `award` first, then `topup`, then `income`; a negative residual is
recorded on `topup`.  The sequential Rust mutations
(`award -= amount; if award < 0 { topup -= -award; award = 0; ... }`) are
flattened into the value each field holds at the end of the branch:
intermediate `award` is `w.award - amount`, intermediate `topup` is
`w.topup + (w.award - amount)`, intermediate `income` is
`w.income + w.topup + (w.award - amount)`. -/
def spend_consume (w : Wallet) (amount : Int) : Wallet :=
  if w.award - amount < 0 then
    if w.topup + (w.award - amount) < 0 then
      if w.income + w.topup + (w.award - amount) < 0 then
        -- overdraw will be recorded on topup
        { w with award := 0, topup := w.income + w.topup + (w.award - amount),
                 income := 0 }
      else
        { w with award := 0, topup := 0,
                 income := w.income + w.topup + (w.award - amount) }
    else
      { w with award := 0, topup := w.topup + (w.award - amount) }
  else { w with award := w.award - amount }

/-- model_transaction.rs: the `quota` computed by `sub_payer_balance` for a
user payer. -/
def TransactionKind.payer_quota (k : TransactionKind) (w : Wallet) : Int :=
  match k with
  | .withdraw => w.income
  | .refund => w.topup
  | .spend => w.balance + MAX_OVERDRAW
  | _ => w.balance

/-- model_transaction.rs: `TransactionKind::sub_payer_balance`.  The Rust
`assert!(amount > 0)` is rendered as the `panicked` error. -/
def TransactionKind.sub_payer_balance (k : TransactionKind) (w : Wallet) (amount : Int) :
    Except Err Wallet :=
  if ¬ amount > 0 then .error .panicked
  else if w.is_system then
    match k with
    | .award => .ok { w with award := w.award - amount }
    | .topup => .ok { w with topup := w.topup - amount }
    | _ => .error .invalidTransaction
  else if w.credits = 0 ∧ k ≠ .spend then .error .creditsRequired
  else if w.balance ≤ 0 ∨ k.payer_quota w < amount then .error .insufficientBalance
  else
    match k with
    | .withdraw => .ok { w with income := w.income - amount }
    | .refund => .ok { w with topup := w.topup - amount }
    | .spend | .sponsor | .subscribe => .ok (spend_consume w amount)
    | _ => .error .invalidPayer

/-- model_transaction.rs: `TransactionKind::rollback_payer_balance`.  Every arm
of the Rust match returns `Ok`, so the embedding is a total function. -/
def TransactionKind.rollback_payer_balance (k : TransactionKind) (w : Wallet) (amount : Int) :
    Wallet :=
  match k with
  | .award => { w with award := w.award + amount }
  | .topup | .refund => { w with topup := w.topup + amount }
  | .withdraw => { w with income := w.income + amount }
  -- can not rollback to award or income balance.
  | .spend | .sponsor | .subscribe => { w with topup := w.topup + amount }

/-- model_transaction.rs: `TransactionKind::add_payee_balance`.  Every arm of
the Rust match returns `Ok`, so the embedding is a total function. -/
def TransactionKind.add_payee_balance (k : TransactionKind) (w : Wallet) (amount : Int) :
    Wallet :=
  match k with
  | .award => { w with award := w.award + amount }
  | .topup | .refund | .withdraw => { w with topup := w.topup + amount }
  | .spend | .sponsor | .subscribe => { w with income := w.income + amount }

/-- model_transaction.rs: `TransactionKind::fee_and_shares`.  The i64 division
of Rust truncates toward zero, hence `Int.tdiv`. -/
def TransactionKind.fee_and_shares (k : TransactionKind) (amount credits : Int)
    (has_sub_payee : Bool) : Int × Int :=
  match k with
  | .withdraw =>
    let sys_fee := f32_mul_as_i64 amount SYS_FEE_RATE
    let sys_fee := if sys_fee < 1 then 1 else sys_fee
    (sys_fee, 0)
  | .sponsor | .subscribe =>
    let rate := income_fee_rate credits
    let sys_fee := f32_mul_as_i64 amount rate
    let sys_fee := if sys_fee < 1 then 1 else sys_fee
    let sub_shares := if has_sub_payee then (amount - sys_fee).tdiv 2 else 0
    (sys_fee, sub_shares)
  | _ => ((0 : Int), (0 : Int))

-- Sanity anchors replaying the `fee_and_shares` vectors of the Rust unit test
-- `transaction_kind_works`.
example : TransactionKind.withdraw.fee_and_shares 1 0 false = (1, 0) := by decide
example : TransactionKind.withdraw.fee_and_shares 1000 0 false = (1, 0) := by decide
example : TransactionKind.withdraw.fee_and_shares 10000 10000 false = (10, 0) := by decide
example : TransactionKind.sponsor.fee_and_shares 100 9999 false = (30, 0) := by decide
example : TransactionKind.sponsor.fee_and_shares 100 10000 false = (27, 0) := by decide
example : TransactionKind.sponsor.fee_and_shares 100 100000 false = (24, 0) := by decide
example : TransactionKind.sponsor.fee_and_shares 101 100000000 false = (15, 0) := by decide
example : TransactionKind.sponsor.fee_and_shares 100 9999 true = (30, 35) := by decide
example : TransactionKind.subscribe.fee_and_shares 100 10000 true = (27, 36) := by decide
example : TransactionKind.subscribe.fee_and_shares 100 100000 true = (24, 38) := by decide
example : TransactionKind.subscribe.fee_and_shares 101 100000000 true = (15, 43) := by decide

/-! ### Checksum chain (model_wallet.rs, `HMacTag`)

The keyed HMAC-SHA3-256 itself is not modelled; an `HMacTag` is an abstract
keyed function of exactly the fields `tag64` feeds to the HMAC
(uid, sequence, award, topup, income, txn). -/

/-- model_wallet.rs: the key-dependent part of `HMacTag::tag64`, abstract. -/
def HMacTag : Type := Id → Int → Int → Int → Int → Id → List Nat

/-- model_wallet.rs: `HMacTag::tag64`, the tag over
(uid, sequence, award, topup, income, txn). -/
def HMacTag.tag64 (mac : HMacTag) (w : Wallet) : List Nat :=
  mac w.uid w.sequence w.award w.topup w.income w.txn

/-- model_wallet.rs: `Wallet::verify_checksum`. -/
def Wallet.verify_checksum (w : Wallet) (mac : HMacTag) : Except Err Unit :=
  if w.sequence = 0 then .ok ()
  else if mac.tag64 w = w.checksum then .ok () else .error .checksumMismatch

/-- model_wallet.rs: `Wallet::next_checksum`: bump the sequence, record the
transaction id, then recompute the tag over the post-mutation state. -/
def Wallet.next_checksum (w : Wallet) (mac : HMacTag) (txn : Id) : Wallet :=
  let w1 : Wallet := { w with sequence := w.sequence + 1, txn := txn }
  { w1 with checksum := mac.tag64 w1 }

/-! ### Transaction rows and the prepare / commit protocols
(model_transaction.rs)

Database effects are modelled by explicit state passing.  A conditional
write whose outcome depends on concurrent peers (the `IF NOT EXISTS`
transaction insert and the `update_balance` CAS of `prepare`) is exposed as
a boolean parameter; a CAS-with-retry loop of `commit` is likewise exposed
as one boolean saying whether the loop eventually applied.  `set_status`
CAS outcomes are determined by the stored status itself, exactly as in the
Rust code. -/

/-- model_transaction.rs: struct `Transaction` (the `_fields` bookkeeping
column is not part of the data model). -/
structure Transaction where
  uid : Id
  id : Id
  sequence : Int
  payee : Id
  sub_payee : Option Id
  status : Int
  kind : String
  amount : Int
  sys_fee : Int
  sub_shares : Int
  description : String
  payload : List Nat
deriving Repr, DecidableEq

/-- model_transaction.rs: `Transaction::with_uid` (all other fields zero). -/
def Transaction.with_uid (uid : Id) : Transaction :=
  { uid := uid, id := 0, sequence := 0, payee := 0, sub_payee := none,
    status := 0, kind := "", amount := 0, sys_fee := 0, sub_shares := 0,
    description := "", payload := [] }

/-- model_transaction.rs: `Transaction::prepare`.

`payer_wallet` is the wallet row read for `t.uid`; `new_id` is the fresh
xid; `insert_applied` is the outcome of the `IF NOT EXISTS` insert of the
transaction row and `cas_applied` the outcome of the payer
`update_balance` CAS.  On the success path the Rust code ends with
`set_status(0, 1)` on the row it just inserted with status 0, which in this
single-row model always applies.  Both failure paths delete the inserted
row and report a 429 error. -/
def Transaction.prepare (t : Transaction) (mac : HMacTag) (payer_wallet : Wallet)
    (payee : Id) (kind : TransactionKind) (amount : Int) (new_id : Id)
    (insert_applied cas_applied : Bool) : Except Err (Transaction × Wallet) :=
  if ¬ amount > 0 then .error .invalidAmount
  else
  match kind.check_payer t.uid with
  | .error e => .error e
  | .ok _ =>
  match kind.check_payee payee with
  | .error e => .error e
  | .ok _ =>
  match
    (match t.sub_payee with
     | some sid =>
       match kind.check_sub_payee sid with
       | .error e => .error e
       | .ok _ =>
         if sid = payee ∨ sid = SYS_ID ∨ sid = t.uid then .error .invalidSubPayee
         else .ok ()
     | none => .ok () : Except Err Unit) with
  | .error e => .error e
  | .ok _ =>
  match payer_wallet.verify_checksum mac with
  | .error e => .error e
  | .ok _ =>
  match kind.sub_payer_balance payer_wallet amount with
  | .error e => .error e
  | .ok w =>
  if insert_applied then
    if cas_applied then
      -- the row was inserted with status 0; the closing set_status(0, 1)
      -- applies in this single-row model, leaving status 1
      .ok ({ t with id := new_id, sequence := w.sequence, payee := payee,
                    status := 1, kind := kind.as_ref, amount := amount,
                    sys_fee :=
                      (kind.fee_and_shares amount payer_wallet.credits
                        t.sub_payee.isSome).1,
                    sub_shares :=
                      (kind.fee_and_shares amount payer_wallet.credits
                        t.sub_payee.isSome).2 },
           w.next_checksum mac new_id)
    else .error .prepareFailed
  else .error .prepareFailed

/-- The database rows touched by `Transaction::commit`: the stored status of
the transaction row, the payee wallet row (after the read-or-create step),
the system wallet row, and the sub-payee wallet row.  The three wallet
components model three distinct store rows; `prepare` guarantees that the
sub-payee differs from the payee and from the system wallet, and the
system-fee sub-task is skipped exactly when the payee is the system
wallet. -/
structure CommitState where
  txn_status : Int
  payee_wallet : Wallet
  sys_wallet : Wallet
  sub_wallet : Wallet
deriving Repr, DecidableEq

/-- model_transaction.rs, payee sub-task of `Transaction::commit`: the
in-memory wallet mutation (add `amount - sys_fee - sub_shares` via
`add_payee_balance`, then add `sys_fee` to `income` when the payee is the
system wallet).  The Rust code tests `is_system` after `add_payee_balance`;
the uid is unchanged by it, so the test is equivalently made on `w`. -/
def commit_payee_mutate (t : Transaction) (kind : TransactionKind) (w : Wallet) :
    Wallet :=
  if w.is_system then
    { kind.add_payee_balance w (t.amount - t.sys_fee - t.sub_shares) with
      income :=
        (kind.add_payee_balance w (t.amount - t.sys_fee - t.sub_shares)).income
          + t.sys_fee }
  else kind.add_payee_balance w (t.amount - t.sys_fee - t.sub_shares)

/-- model_transaction.rs: the payee sub-task of `Transaction::commit`
(verify checksum, mutate, bump the checksum chain, CAS with retries). -/
def commit_payee_task (t : Transaction) (kind : TransactionKind) (mac : HMacTag)
    (w : Wallet) (cas : Bool) : Except Err Wallet :=
  match w.verify_checksum mac with
  | .error e => .error e
  | .ok _ =>
    if cas then .ok ((commit_payee_mutate t kind w).next_checksum mac t.id)
    else .error .commitFailed

/-- model_transaction.rs: the system-fee sub-task of `Transaction::commit`,
run only when `sys_fee > 0` and the payee is not the system wallet. -/
def commit_sys_task (t : Transaction) (mac : HMacTag) (payee_is_sys : Prop)
    [Decidable payee_is_sys] (w : Wallet) (cas : Bool) : Except Err Wallet :=
  if t.sys_fee > 0 ∧ ¬ payee_is_sys then
    match w.verify_checksum mac with
    | .error e => .error e
    | .ok _ =>
      if cas then
        .ok (({ w with income := w.income + t.sys_fee }).next_checksum mac t.id)
      else .error .commitFailed
  else .ok w

/-- model_transaction.rs: the sub-payee sub-task of `Transaction::commit`,
run only when `sub_shares > 0`. -/
def commit_sub_task (t : Transaction) (mac : HMacTag) (w : Wallet) (cas : Bool) :
    Except Err Wallet :=
  if t.sub_shares > 0 then
    match w.verify_checksum mac with
    | .error e => .error e
    | .ok _ =>
      if cas then
        .ok (({ w with income := w.income + t.sub_shares }).next_checksum mac t.id)
      else .error .commitFailed
  else .ok w

/-- model_transaction.rs, `Transaction::commit` after the `set_status(1, 2)`
CAS applied: join the three sub-task results; every successful sub-task
keeps its wallet write, and any error leaves the row at status 2 with a
partial-commit error. -/
def commit_join (t : Transaction) (st1 : CommitState)
    (ra rb rc : Except Err Wallet) : Except Err Transaction × CommitState :=
  match ra, rb, rc with
  | .ok wa, .ok wb, .ok wc =>
    (.ok { t with status := 3 },
     { txn_status := 3, payee_wallet := wa, sys_wallet := wb, sub_wallet := wc })
  | _, _, _ =>
    (.error .commitPartial,
     { st1 with
       payee_wallet := match ra with | .ok w => w | .error _ => st1.payee_wallet,
       sys_wallet := match rb with | .ok w => w | .error _ => st1.sys_wallet,
       sub_wallet := match rc with | .ok w => w | .error _ => st1.sub_wallet })

/-- model_transaction.rs: `Transaction::commit`.

Returns the operation result together with the post-state; an errored
sub-task leaves its wallet row unwritten while the successful sub-tasks
keep their writes (the Rust code joins the three futures and collects the
errors).  The `set_status(1, 2)` CAS applies exactly when the stored status
is 1; when it does not apply, a stored status of 3 is the idempotent
success path and every other stored status is a 500 error. -/
def Transaction.commit (t : Transaction) (mac : HMacTag) (st : CommitState)
    (payee_cas sys_cas sub_cas : Bool) : Except Err Transaction × CommitState :=
  match TransactionKind.from_str t.kind with
  | none => (.error .invalidKind, st)
  | some kind =>
  match kind.check_payee t.payee with
  | .error e => (.error e, st)
  | .ok _ =>
  if t.sub_shares > 0 ∧ t.sub_payee = none then (.error .panicked, st)
  else if st.txn_status = 1 then
    commit_join t { st with txn_status := 2 }
      (commit_payee_task t kind mac st.payee_wallet payee_cas)
      (commit_sys_task t mac st.payee_wallet.is_system st.sys_wallet sys_cas)
      (commit_sub_task t mac st.sub_wallet sub_cas)
  else if st.txn_status = 3 then
    -- already committed
    (.ok { t with status := 3 }, st)
  else (.error .statusConflict, st)

/-! ### Credit ledger (model_credit.rs) -/

/-- model_credit.rs: enum `CreditKind`. -/
inductive CreditKind where
  | init
  | award
  | expenditure
  | income
deriving Repr, DecidableEq

/-- model_credit.rs: strum lowercase serialization (`as_ref` / `to_string`). -/
def CreditKind.as_ref : CreditKind → String
  | .init => "init"
  | .award => "award"
  | .expenditure => "expenditure"
  | .income => "income"

/-- model_credit.rs: struct `Credit`. -/
structure Credit where
  uid : Id
  txn : Id
  kind : String
  amount : Int
  description : String
deriving Repr, DecidableEq

/-- model_credit.rs: `Credit::save`.

`w` is the wallet row read for `c.uid` (the Rust code fails earlier with
`NotFound` when that row is absent); `row_exists` is the negated outcome of
the `INSERT ... IF NOT EXISTS` of the credit row.  The credits-counter CAS
retry loop always applies on the first try in this single-writer model.
The result carries the (possibly amount-rewritten) credit, the updated
wallet row, and whether a credit row was actually inserted. -/
def Credit.save (c : Credit) (w : Wallet) (row_exists : Bool) :
    Except Err (Credit × Wallet × Bool) :=
  if c.amount ≤ 0 then .error .invalidAmount
  else if c.uid = SYS_ID then .ok (c, w, false)
  else
    -- let is_init = self.kind == CreditKind::Init.as_ref()
    if c.kind = CreditKind.init.as_ref ∧ w.credits > 0 then .error .alreadyInitialized
    else if w.credits = 0 ∧ ¬ c.kind = CreditKind.init.as_ref then
      -- credits is not initialized, skip
      .ok (c, w, false)
    else
      let c1 := if c.kind = CreditKind.init.as_ref then { c with amount := 10 } else c
      if row_exists then
        -- insert not applied: credit already added elsewhere, log and succeed
        .ok (c1, w, false)
      else
        -- UPDATE wallet SET credits = self.amount + wallet.credits IF credits = ...
        .ok (c1, { w with credits := c1.amount + w.credits }, true)

/-! ### Charge updates (model_charge.rs and api/charge.rs) -/

/-- A CQL value, as far as the charge update path needs one. -/
inductive CqlVal where
  | int (i : Int)
  | str (s : String)
  | blob (b : List Nat)
  | idv (x : Id)
deriving Repr, DecidableEq

/-- A `ColumnsMap` sent to `Charge::update`: column names with values, in
insertion order. -/
abbrev ColsMap : Type := List (String × CqlVal)

/-- model_charge.rs: struct `Charge`. -/
structure Charge where
  uid : Id
  id : Id
  status : Int
  updated_at : Int
  expire_at : Int
  quantity : Int
  currency : String
  amount : Int
  amount_refunded : Int
  provider : String
  charge_id : String
  charge_payload : List Nat
  txn : Option Id
  txn_refunded : Option Id
  failure_code : String
  failure_msg : String
deriving Repr, DecidableEq

/-- model_charge.rs: the field whitelist of `Charge::update`. -/
def charge_update_valid_fields : List String :=
  ["status", "currency", "amount", "amount_refunded", "charge_id",
   "charge_payload", "txn", "txn_refunded", "failure_code", "failure_msg"]

/-- Applying one SET column of the `Charge::update` CQL statement (also used
for the `self.fill(&cols)` read-back): the column name selects the charge
field of the matching CQL type. -/
def Charge.apply_col (c : Charge) (f : String) (v : CqlVal) : Charge :=
  match v with
  | .int i =>
    if f = "status" then { c with status := i }
    else if f = "amount" then { c with amount := i }
    else if f = "amount_refunded" then { c with amount_refunded := i }
    else c
  | .str s =>
    if f = "currency" then { c with currency := s }
    else if f = "charge_id" then { c with charge_id := s }
    else if f = "failure_code" then { c with failure_code := s }
    else if f = "failure_msg" then { c with failure_msg := s }
    else c
  | .blob b => if f = "charge_payload" then { c with charge_payload := b } else c
  | .idv x =>
    if f = "txn" then { c with txn := some x }
    else if f = "txn_refunded" then { c with txn_refunded := some x }
    else c

/-- model_charge.rs: `Charge::update`.

`c` is the stored charge row; `status` is the caller-expected status and
`now` the wall clock.  The update validates the field whitelist, requires
the stored status to equal the expected one, and then CAS-writes
`updated_at = now` plus the supplied columns guarded by
`IF status = expected`; in this single-writer model the guard holds
whenever the earlier read did, so the CAS applies. -/
def Charge.update (c : Charge) (cols : ColsMap) (status : Int) (now : Int) :
    Except Err Charge :=
  if cols.any (fun p => !(charge_update_valid_fields.contains p.1)) then
    .error .invalidField
  else if c.status ≠ status then .error .statusConflict
  else
    let c1 := cols.foldl (fun acc p => acc.apply_col p.1 p.2) c
    .ok { c1 with updated_at := now }

/-- api/charge.rs: struct `UpdateChargeInput` (the `uid` / `id` routing
fields are dropped; `current_status` is the expected-status the caller
supplies). -/
structure UpdateChargeInput where
  current_status : Int
  status : Option Int
  currency : Option String
  amount : Option Int
  amount_refunded : Option Int
  charge_id : Option String
  charge_payload : Option (List Nat)
  failure_code : Option String
  failure_msg : Option String
deriving Repr, DecidableEq

/-- One `if let Some(x) = ... { cols.set_as(name, x) }` step of
`UpdateChargeInput::into`: append the column when the optional input field
is present. -/
def add_col (cols : ColsMap) (kname : String) (o : Option CqlVal) : ColsMap :=
  match o with
  | some v => cols ++ [(kname, v)]
  | none => cols

/-- api/charge.rs, `UpdateChargeInput::into`: the middle run of optional
columns (currency, amount, amount_refunded, charge_id, charge_payload),
appended in source order after `cols0`. -/
def into_cols_mid (inp : UpdateChargeInput) (cols0 : ColsMap) : ColsMap :=
  add_col
    (add_col
      (add_col
        (add_col
          (add_col cols0 "currency" (inp.currency.map CqlVal.str))
          "amount" (inp.amount.map CqlVal.int))
        "amount_refunded" (inp.amount_refunded.map CqlVal.int))
      "charge_id" (inp.charge_id.map CqlVal.str))
    "charge_payload" (inp.charge_payload.map CqlVal.blob)

/-- api/charge.rs, `UpdateChargeInput::into`: everything after the status
step — the middle columns, the guarded `failure_code`, then
`failure_msg`. -/
def into_cols_rest (inp : UpdateChargeInput) (cols0 : ColsMap) : Except Err ColsMap :=
  match inp.failure_code with
  | some s =>
    if inp.status ≠ some (-2) then .error .failureCodeWithoutStatus
    else
      .ok (add_col (into_cols_mid inp cols0 ++ [("failure_code", CqlVal.str s)])
        "failure_msg" (inp.failure_msg.map CqlVal.str))
  | none =>
    .ok (add_col (into_cols_mid inp cols0)
      "failure_msg" (inp.failure_msg.map CqlVal.str))

/-- api/charge.rs: `UpdateChargeInput::into`, building the `ColumnsMap` that
is handed to `Charge::update`.  A requested status of `-1`, or above `1`,
is rejected outright; `failure_code` demands a requested status of `-2`;
an empty map is rejected. -/
def UpdateChargeInput.into_cols (inp : UpdateChargeInput) : Except Err ColsMap :=
  match
    (match inp.status with
     | some s =>
       if s = -1 ∨ s > 1 then .error .invalidStatus
       else .ok [("status", CqlVal.int s)]
     | none => .ok [] : Except Err ColsMap) with
  | .error e => .error e
  | .ok cols0 =>
  match into_cols_rest inp cols0 with
  | .error e => .error e
  | .ok cols => if cols.isEmpty then .error .noFieldsToUpdate else .ok cols

/-! ### Helper lemmas -/

theorem Wallet.next_checksum_award (w : Wallet) (mac : HMacTag) (txn : Id) :
    (w.next_checksum mac txn).award = w.award := rfl

theorem Wallet.next_checksum_topup (w : Wallet) (mac : HMacTag) (txn : Id) :
    (w.next_checksum mac txn).topup = w.topup := rfl

theorem Wallet.next_checksum_income (w : Wallet) (mac : HMacTag) (txn : Id) :
    (w.next_checksum mac txn).income = w.income := rfl

theorem Wallet.next_checksum_balance (w : Wallet) (mac : HMacTag) (txn : Id) :
    (w.next_checksum mac txn).balance = w.balance := rfl

theorem Wallet.next_checksum_sequence (w : Wallet) (mac : HMacTag) (txn : Id) :
    (w.next_checksum mac txn).sequence = w.sequence + 1 := rfl

theorem Wallet.next_checksum_txn (w : Wallet) (mac : HMacTag) (txn : Id) :
    (w.next_checksum mac txn).txn = txn := rfl

/-- `add_payee_balance` credits exactly `amount` to the balance, whichever
bucket it lands in. -/
theorem add_payee_balance_balance (k : TransactionKind) (w : Wallet) (a : Int) :
    (k.add_payee_balance w a).balance = w.balance + a := by
  cases k <;> simp [TransactionKind.add_payee_balance, Wallet.balance] <;> ring

/-- The award-then-topup-then-income consumption cascade removes exactly
`amount` from the balance. -/
theorem spend_consume_balance (w : Wallet) (a : Int) :
    (spend_consume w a).balance = w.balance - a := by
  unfold spend_consume
  split_ifs <;> simp [Wallet.balance] <;> omega

/-- A successful payer deduction removes exactly `amount` from the payer
balance, for every transaction kind. -/
theorem sub_payer_balance_balance (k : TransactionKind) (w : Wallet) (a : Int)
    (w2 : Wallet) (h : k.sub_payer_balance w a = .ok w2) :
    w2.balance = w.balance - a := by
  cases k <;>
    simp only [TransactionKind.sub_payer_balance] at h <;>
    split_ifs at h <;>
    cases h <;>
    first
    | exact spend_consume_balance w a
    | (simp [Wallet.balance]; omega)

theorem income_fee_rate_num_bounds (credits : Int) :
    0 ≤ (income_fee_rate credits).num ∧
      (income_fee_rate credits).num ≤ ((income_fee_rate credits).den : Int) := by
  unfold income_fee_rate
  split_ifs <;> decide

theorem SYS_FEE_RATE_num_bounds :
    0 ≤ SYS_FEE_RATE.num ∧ SYS_FEE_RATE.num ≤ (SYS_FEE_RATE.den : Int) := by
  decide

/-- Truncated multiplication by a rate in [0, 1] stays within [0, x]. -/
theorem f32_mul_as_i64_bounds (x : Int) (r : Rat) (hx : 1 ≤ x)
    (h0 : 0 ≤ r.num) (h1 : r.num ≤ (r.den : Int)) :
    0 ≤ f32_mul_as_i64 x r ∧ f32_mul_as_i64 x r ≤ x := by
  unfold f32_mul_as_i64
  have hden : (0 : Int) < (r.den : Int) := by
    exact_mod_cast Nat.pos_of_ne_zero r.den_nz
  have hxnum : 0 ≤ x * r.num := mul_nonneg (by omega) h0
  constructor
  · exact Int.tdiv_nonneg hxnum (by omega)
  · rw [Int.tdiv_eq_ediv hxnum (by omega)]
    calc x * r.num / (r.den : Int) ≤ x * (r.den : Int) / (r.den : Int) := by
          apply Int.ediv_le_ediv hden
          exact mul_le_mul_of_nonneg_left h1 (by omega)
      _ = x := Int.mul_ediv_cancel x (by omega)

/-- For a positive amount, `fee_and_shares` returns a nonnegative fee and
nonnegative sub-payee shares, summing to at most the amount. -/
theorem fee_and_shares_nonneg (k : TransactionKind) (amount credits : Int)
    (hs : Bool) (ha : 1 ≤ amount) :
    0 ≤ (k.fee_and_shares amount credits hs).1 ∧
      0 ≤ (k.fee_and_shares amount credits hs).2 ∧
      (k.fee_and_shares amount credits hs).1 ≤ amount := by
  have hsys := SYS_FEE_RATE_num_bounds
  have hrate := income_fee_rate_num_bounds credits
  have hb1 := f32_mul_as_i64_bounds amount SYS_FEE_RATE ha hsys.1 hsys.2
  have hb2 := f32_mul_as_i64_bounds amount (income_fee_rate credits) ha hrate.1 hrate.2
  cases k <;> simp only [TransactionKind.fee_and_shares]
  case withdraw => split_ifs <;> omega
  all_goals try (refine ⟨by omega, by omega, by omega⟩)
  all_goals
    split_ifs <;>
      refine ⟨by omega, ?_, by omega⟩ <;>
      first
      | omega
      | exact Int.tdiv_nonneg (by omega) (by omega)

/-- Round-tripping a transaction kind through its string label. -/
theorem from_str_as_ref (k : TransactionKind) :
    TransactionKind.from_str k.as_ref = some k := by
  cases k <;> rfl

/-- A wallet literal for concrete checks: uid, award, topup, income, credits. -/
def test_wallet (uid : Id) (award topup income credits : Int) : Wallet :=
  { uid := uid, sequence := 0, award := award, topup := topup, income := income,
    credits := credits, txn := 0, checksum := [] }

-- Sanity anchors replaying `sub_payer_balance` vectors of the Rust unit test
-- `transaction_kind_works` (system wallet, credits gate, bucket cascade,
-- overdraw).
example : TransactionKind.award.sub_payer_balance (Wallet.with_pk SYS_ID) 100
    = .ok (test_wallet SYS_ID (-100) 0 0 0) := by decide
example : TransactionKind.spend.sub_payer_balance (test_wallet SYS_ID (-200) (-100) 0 0) 100
    = .error .invalidTransaction := by decide
example : TransactionKind.sponsor.sub_payer_balance (test_wallet 1 100 0 0 0) 100
    = .error .creditsRequired := by decide
example : TransactionKind.sponsor.sub_payer_balance (test_wallet 1 100 0 0 10) 100
    = .ok (test_wallet 1 0 0 0 10) := by decide
example : TransactionKind.sponsor.sub_payer_balance (test_wallet 1 0 0 0 10) 1000
    = .error .insufficientBalance := by decide
example : TransactionKind.refund.sub_payer_balance (test_wallet 1 100 100 100 10) 200
    = .error .insufficientBalance := by decide
example : TransactionKind.withdraw.sub_payer_balance (test_wallet 1 100 100 100 10) 200
    = .error .insufficientBalance := by decide
example : TransactionKind.refund.sub_payer_balance (test_wallet 1 100 100 100 10) 50
    = .ok (test_wallet 1 100 50 100 10) := by decide
example : TransactionKind.withdraw.sub_payer_balance (test_wallet 1 100 50 100 10) 50
    = .ok (test_wallet 1 100 50 50 10) := by decide
example : TransactionKind.award.sub_payer_balance (test_wallet 1 100 50 50 10) 110
    = .error .invalidPayer := by decide
example : TransactionKind.spend.sub_payer_balance (test_wallet 1 100 50 50 10) 110
    = .ok (test_wallet 1 0 40 50 10) := by decide
example : TransactionKind.sponsor.sub_payer_balance (test_wallet 1 0 40 50 10) 50
    = .ok (test_wallet 1 0 0 40 10) := by decide
example : TransactionKind.refund.sub_payer_balance (test_wallet 1 0 0 40 10) 40
    = .error .insufficientBalance := by decide
example : TransactionKind.withdraw.sub_payer_balance (test_wallet 1 0 0 40 10) 40
    = .ok (test_wallet 1 0 0 0 10) := by decide
example : TransactionKind.sponsor.sub_payer_balance (test_wallet 1 0 0 0 10) 50
    = .error .insufficientBalance := by decide
example : TransactionKind.sponsor.sub_payer_balance (test_wallet 1 10 10 10 10) 50
    = .error .insufficientBalance := by decide
example : TransactionKind.spend.sub_payer_balance (test_wallet 1 10 10 10 10) 50
    = .ok (test_wallet 1 0 (-20) 0 10) := by decide
example : TransactionKind.spend.sub_payer_balance (test_wallet 1 20 (-20) 0 10) 110
    = .error .insufficientBalance := by decide
example : TransactionKind.subscribe.sub_payer_balance (test_wallet 1 30 (-20) 0 10) 110
    = .error .insufficientBalance := by decide
example : TransactionKind.spend.sub_payer_balance (test_wallet 1 30 (-20) 0 10) 110
    = .ok (test_wallet 1 0 (-100) 0 10) := by decide
example : TransactionKind.spend.sub_payer_balance (test_wallet 1 0 10 0 10) 120
    = .error .insufficientBalance := by decide
example : TransactionKind.spend.sub_payer_balance (test_wallet 1 0 10 0 10) 110
    = .ok (test_wallet 1 0 (-100) 0 10) := by decide

-- Sanity anchors replaying `rollback_payer_balance` and `add_payee_balance`
-- vectors of the Rust unit test.
example : TransactionKind.spend.rollback_payer_balance (test_wallet 1 1 2 1 0) 1
    = test_wallet 1 1 3 1 0 := by decide
example : TransactionKind.withdraw.rollback_payer_balance (test_wallet 1 1 2 0 0) 1
    = test_wallet 1 1 2 1 0 := by decide
example : TransactionKind.withdraw.add_payee_balance (test_wallet 1 0 2 0 0) 1
    = test_wallet 1 0 3 0 0 := by decide
example : TransactionKind.subscribe.add_payee_balance (test_wallet 1 0 3 2 0) 1
    = test_wallet 1 0 3 3 0 := by decide

-- Sanity anchors replaying the `Credit::save` behavior pinned by the Rust
-- unit test `credit_model_works`: an "award" credit on an uninitialized
-- wallet is skipped, an "init" credit initializes with amount forced to 10,
-- a later "award" credit is appended.
example :
    Credit.save { uid := 1, txn := 9, kind := "award", amount := 10, description := "" }
      (test_wallet 1 0 0 0 0) false
    = .ok ({ uid := 1, txn := 9, kind := "award", amount := 10, description := "" },
        test_wallet 1 0 0 0 0, false) := by decide
example :
    Credit.save { uid := 1, txn := 9, kind := "init", amount := 37, description := "" }
      (test_wallet 1 0 0 0 0) false
    = .ok ({ uid := 1, txn := 9, kind := "init", amount := 10, description := "" },
        test_wallet 1 0 0 0 10, true) := by decide
example :
    Credit.save { uid := 1, txn := 9, kind := "init", amount := 10, description := "" }
      (test_wallet 1 0 0 0 20) false
    = .error .alreadyInitialized := by decide
example :
    Credit.save { uid := 1, txn := 9, kind := "award", amount := 10, description := "" }
      (test_wallet 1 0 0 0 10) false
    = .ok ({ uid := 1, txn := 9, kind := "award", amount := 10, description := "" },
        test_wallet 1 0 0 0 20, true) := by decide

/-! ### Claim C8: income fee brackets -/

/-- The bracket step function exactly as the claim words it: 0.30 up to
9,999 credits, then 0.27 / 0.24 / 0.21 / 0.18 / 0.15 / 0.12 on each
successive decade bracket, and 0.09 above 9,999,999,999. -/
def income_fee_rate_claimed (credits : Int) : Rat :=
  if credits ≤ 9999 then 30 / 100
  else if 10000 ≤ credits ∧ credits ≤ 99999 then 27 / 100
  else if 100000 ≤ credits ∧ credits ≤ 999999 then 24 / 100
  else if 1000000 ≤ credits ∧ credits ≤ 9999999 then 21 / 100
  else if 10000000 ≤ credits ∧ credits ≤ 99999999 then 18 / 100
  else if 100000000 ≤ credits ∧ credits ≤ 999999999 then 15 / 100
  else if 1000000000 ≤ credits ∧ credits ≤ 9999999999 then 12 / 100
  else 9 / 100

set_option maxHeartbeats 3200000 in
/-- C8: for every credits value, `income_fee_rate` returns exactly the rate
of the claimed bracket: 0.30 for credits up to 9,999; 0.27, 0.24, 0.21,
0.18, 0.15, 0.12 on the successive brackets; and 0.09 for every credits
above 9,999,999,999. -/
theorem income_fee_rate_brackets (credits : Int) :
    income_fee_rate credits = income_fee_rate_claimed credits := by
  unfold income_fee_rate income_fee_rate_claimed
  split_ifs <;>
    first
    | omega
    | (rw [Rat.mk'_eq_divInt, Rat.divInt_eq_div]; norm_num)

/-! ### Claim C7: cancel round-trip -/

/-- C7: whenever the payer deduction for a kind succeeds,
`rollback_payer_balance` with the same amount restores the payer balance to
its pre-deduction value; and for Spend, Sponsor and Subscribe the
rolled-back amount is credited entirely to `topup`, with `award` and
`income` untouched. -/
theorem cancel_rollback_restores_balance (k : TransactionKind) (w : Wallet)
    (amount : Int) (w2 : Wallet) (h : k.sub_payer_balance w amount = .ok w2) :
    (k.rollback_payer_balance w2 amount).balance = w.balance
    ∧ ((k = .spend ∨ k = .sponsor ∨ k = .subscribe) →
        (k.rollback_payer_balance w2 amount).topup = w2.topup + amount
        ∧ (k.rollback_payer_balance w2 amount).award = w2.award
        ∧ (k.rollback_payer_balance w2 amount).income = w2.income) := by
  have hb := sub_payer_balance_balance k w amount w2 h
  constructor
  · cases k <;>
      simp only [TransactionKind.rollback_payer_balance] <;>
      simp [Wallet.balance] at hb ⊢ <;>
      omega
  · rintro (rfl | rfl | rfl) <;>
      exact ⟨rfl, rfl, rfl⟩

/-- Concrete payer wallet for the C7 witness. -/
def c7_wallet : Wallet := test_wallet 1 10 0 0 0

/-- The deduction result of a Spend of 4 on `c7_wallet`. -/
def c7_deducted : Wallet := test_wallet 1 6 0 0 0

theorem cancel_rollback_restores_balance_witness :
    (TransactionKind.spend.rollback_payer_balance c7_deducted 4).balance
      = c7_wallet.balance
    ∧ (TransactionKind.spend.rollback_payer_balance c7_deducted 4).topup
      = c7_deducted.topup + 4 :=
  have h : TransactionKind.spend.sub_payer_balance c7_wallet 4 = .ok c7_deducted := by
    decide
  ⟨(cancel_rollback_restores_balance .spend c7_wallet 4 c7_deducted h).1,
   ((cancel_rollback_restores_balance .spend c7_wallet 4 c7_deducted h).2
     (Or.inl rfl)).1⟩

/-! ### Claim C2: spend overdraw -/

/-- On a non-system wallet with a positive amount, the Spend deduction
reduces to the quota test followed by the bucket cascade. -/
theorem spend_sub_payer_eq (w : Wallet) (amount : Int) (hns : ¬ w.is_system)
    (hamt : 0 < amount) :
    TransactionKind.spend.sub_payer_balance w amount =
      if w.balance ≤ 0 ∨ w.balance + MAX_OVERDRAW < amount then
        .error .insufficientBalance
      else .ok (spend_consume w amount) := by
  simp only [TransactionKind.sub_payer_balance]
  rw [if_neg (by omega), if_neg hns, if_neg (by simp)]
  rfl

/-- The bucket cascade keeps award and income nonnegative, keeps topup at or
above the overdraw floor, and hits the floor exactly at the quota. -/
theorem spend_consume_post (w : Wallet) (amount : Int)
    (_ha : 0 ≤ w.award) (ht : 0 ≤ w.topup) (hi : 0 ≤ w.income)
    (hq : amount ≤ w.balance + MAX_OVERDRAW) :
    0 ≤ (spend_consume w amount).award ∧ 0 ≤ (spend_consume w amount).income
    ∧ -MAX_OVERDRAW ≤ (spend_consume w amount).topup
    ∧ (amount = w.balance + MAX_OVERDRAW →
        (spend_consume w amount).topup = -MAX_OVERDRAW) := by
  unfold spend_consume
  split_ifs <;>
    refine ⟨?_, ?_, ?_, fun heq => ?_⟩ <;>
    simp only [Wallet.balance, MAX_OVERDRAW] at * <;>
    omega

/-- C2: for a non-system payer wallet with nonnegative award, topup and
income buckets and a positive amount, the Spend deduction succeeds exactly
when `balance() > 0` and `amount ≤ balance() + MAX_OVERDRAW`
(`MAX_OVERDRAW = 100`, with no credits requirement); on success the
balance drops by exactly `amount`, award and income end nonnegative, topup
ends at or above `-MAX_OVERDRAW`, and at
`amount = balance() + MAX_OVERDRAW` exactly, the wallet ends with
`topup = -MAX_OVERDRAW`. -/
theorem spend_overdraw (w : Wallet) (hns : ¬ w.is_system)
    (ha : 0 ≤ w.award) (ht : 0 ≤ w.topup) (hi : 0 ≤ w.income)
    (amount : Int) (hamt : 0 < amount) :
    MAX_OVERDRAW = 100
    ∧ ((∃ w2, TransactionKind.spend.sub_payer_balance w amount = .ok w2) ↔
        0 < w.balance ∧ amount ≤ w.balance + MAX_OVERDRAW)
    ∧ (∀ w2, TransactionKind.spend.sub_payer_balance w amount = .ok w2 →
        w2.balance = w.balance - amount ∧ 0 ≤ w2.award ∧ 0 ≤ w2.income
        ∧ -MAX_OVERDRAW ≤ w2.topup
        ∧ (amount = w.balance + MAX_OVERDRAW → w2.topup = -MAX_OVERDRAW)) := by
  have hsimp := spend_sub_payer_eq w amount hns hamt
  refine ⟨rfl, ?_, ?_⟩
  · by_cases hc : w.balance ≤ 0 ∨ w.balance + MAX_OVERDRAW < amount
    · rw [hsimp, if_pos hc]
      constructor
      · rintro ⟨w2, h⟩; simp at h
      · intro hrhs; exfalso; omega
    · rw [hsimp, if_neg hc]
      push_neg at hc
      constructor
      · rintro -; exact ⟨by omega, by omega⟩
      · intro; exact ⟨spend_consume w amount, rfl⟩
  · intro w2 h
    rw [hsimp] at h
    -- split_ifs discharges the error branch (error ≠ ok) by itself
    split_ifs at h with hc
    have h2 : spend_consume w amount = w2 := Except.ok.inj h
    subst h2
    push_neg at hc
    have hpost := spend_consume_post w amount ha ht hi hc.2
    exact ⟨spend_consume_balance w amount, hpost.1, hpost.2.1, hpost.2.2.1,
      hpost.2.2.2⟩

/-- Concrete Spend at exactly `balance() + MAX_OVERDRAW` for the C2 witness:
a wallet with `balance() = 10` (and zero credits) spending 110. -/
def c2_wallet : Wallet := test_wallet 1 10 0 0 0

/-- The deduction result of a Spend of 110 on `c2_wallet`. -/
def c2_deducted : Wallet := test_wallet 1 0 (-100) 0 0

theorem spend_overdraw_witness :
    c2_deducted.balance = c2_wallet.balance - 110
    ∧ c2_deducted.topup = -MAX_OVERDRAW :=
  have h : TransactionKind.spend.sub_payer_balance c2_wallet 110 = .ok c2_deducted := by
    decide
  have H := spend_overdraw c2_wallet (by decide) (by decide) (by decide) (by decide)
    110 (by decide)
  ⟨(H.2.2 c2_deducted h).1, (H.2.2 c2_deducted h).2.2.2.2 (by decide)⟩

/-! ### Claim C4: prepare postcondition -/

/-- C4: every successful `Transaction::prepare` leaves the payer wallet with
`wallet.sequence = txn.sequence + 1` and `wallet.txn = txn.id`. -/
theorem prepare_postcondition (t : Transaction) (mac : HMacTag) (pw : Wallet)
    (payee : Id) (kind : TransactionKind) (amount : Int) (new_id : Id)
    (insert_applied cas_applied : Bool) (t1 : Transaction) (w1 : Wallet)
    (h : t.prepare mac pw payee kind amount new_id insert_applied cas_applied
          = .ok (t1, w1)) :
    w1.sequence = t1.sequence + 1 ∧ w1.txn = t1.id := by
  unfold Transaction.prepare at h
  repeat' split at h
  all_goals cases h
  exact ⟨rfl, rfl⟩

/-- A trivial keyed tag for concrete checks. -/
def test_mac : HMacTag := fun _ _ _ _ _ _ => [7]

theorem prepare_postcondition_witness :
    ∃ t1 w1,
      (Transaction.with_uid SYS_ID).prepare test_mac (Wallet.with_pk SYS_ID)
          1 .award 5 42 true true = .ok (t1, w1)
      ∧ w1.sequence = t1.sequence + 1 ∧ w1.txn = t1.id := by
  refine ⟨_, _, rfl, ?_⟩
  exact prepare_postcondition (Transaction.with_uid SYS_ID) test_mac
    (Wallet.with_pk SYS_ID) 1 .award 5 42 true true _ _ rfl

/-! ### Commit sub-task balance accounting -/

/-- The payee sub-task credits `amount - sys_fee - sub_shares` to the payee
balance, plus the system fee when the payee is the system wallet. -/
theorem commit_payee_task_balance (t : Transaction) (k : TransactionKind)
    (mac : HMacTag) (w : Wallet) (cas : Bool) (wa : Wallet)
    (h : commit_payee_task t k mac w cas = .ok wa) :
    wa.balance = w.balance + (t.amount - t.sys_fee - t.sub_shares)
      + (if w.is_system then t.sys_fee else 0) := by
  unfold commit_payee_task at h
  cases hv : w.verify_checksum mac <;> simp only [hv] at h
  · cases h
  · cases cas <;> simp at h
    subst h
    rw [Wallet.next_checksum_balance]
    have hX := add_payee_balance_balance k w (t.amount - t.sys_fee - t.sub_shares)
    unfold commit_payee_mutate
    split_ifs with hsys <;> simp [Wallet.balance] at hX ⊢ <;> omega

/-- The system-fee sub-task credits `sys_fee` to the system wallet balance
exactly when it runs. -/
theorem commit_sys_task_balance (t : Transaction) (mac : HMacTag)
    (P : Prop) [Decidable P] (w : Wallet) (cas : Bool) (wb : Wallet)
    (h : commit_sys_task t mac P w cas = .ok wb) :
    wb.balance = w.balance + (if t.sys_fee > 0 ∧ ¬ P then t.sys_fee else 0) := by
  unfold commit_sys_task at h
  split_ifs at h with hcond hcas1 hcas2
  · cases hv : w.verify_checksum mac <;> simp only [hv] at h
    · cases h
    · have h2 := Except.ok.inj h
      subst h2
      rw [Wallet.next_checksum_balance, if_pos hcond]
      simp [Wallet.balance]
      ring
  · cases hv : w.verify_checksum mac <;> simp only [hv] at h <;> cases h
  · have h2 := Except.ok.inj h
    subst h2
    rw [if_neg hcond]
    simp

/-- The sub-payee sub-task credits `sub_shares` to the sub-payee balance
exactly when it runs. -/
theorem commit_sub_task_balance (t : Transaction) (mac : HMacTag)
    (w : Wallet) (cas : Bool) (wc : Wallet)
    (h : commit_sub_task t mac w cas = .ok wc) :
    wc.balance = w.balance + (if t.sub_shares > 0 then t.sub_shares else 0) := by
  unfold commit_sub_task at h
  split_ifs at h with hcond hcas1 hcas2
  · cases hv : w.verify_checksum mac <;> simp only [hv] at h
    · cases h
    · have h2 := Except.ok.inj h
      subst h2
      rw [Wallet.next_checksum_balance, if_pos hcond]
      simp [Wallet.balance]
      ring
  · cases hv : w.verify_checksum mac <;> simp only [hv] at h <;> cases h
  · have h2 := Except.ok.inj h
    subst h2
    rw [if_neg hcond]
    simp

/-- A successful `commit` on a status-1 row runs the three sub-tasks to
completion and advances the row to status 3. -/
theorem commit_ok_of_status1 (t : Transaction) (k : TransactionKind)
    (mac : HMacTag) (st : CommitState) (pc sc bc : Bool)
    (t1 : Transaction) (st1 : CommitState)
    (hkind : t.kind = k.as_ref) (h1 : st.txn_status = 1)
    (hcommit : t.commit mac st pc sc bc = (.ok t1, st1)) :
    ∃ wa wb wc,
      commit_payee_task t k mac st.payee_wallet pc = .ok wa
      ∧ commit_sys_task t mac st.payee_wallet.is_system st.sys_wallet sc = .ok wb
      ∧ commit_sub_task t mac st.sub_wallet bc = .ok wc
      ∧ st1 = { txn_status := 3, payee_wallet := wa, sys_wallet := wb,
                sub_wallet := wc }
      ∧ t1 = { t with status := 3 } := by
  unfold Transaction.commit at hcommit
  simp only [hkind, from_str_as_ref] at hcommit
  cases hcp : k.check_payee t.payee <;> simp only [hcp] at hcommit
  · cases hcommit
  · split_ifs at hcommit with hpanic
    · cases hcommit
    · unfold commit_join at hcommit
      cases hA : commit_payee_task t k mac st.payee_wallet pc <;>
        cases hB : commit_sys_task t mac st.payee_wallet.is_system
          st.sys_wallet sc <;>
        cases hC : commit_sub_task t mac st.sub_wallet bc <;>
        simp only [hA, hB, hC] at hcommit
      all_goals cases hcommit
      all_goals exact ⟨_, _, _, rfl, rfl, rfl, rfl, rfl⟩

/-! ### Claim C1: conservation of funds -/

/-- C1: over one transaction, the payer deduction removes exactly `amount`
from the payer balance, and a successful commit credits
`amount - sys_fee - sub_shares` to the payee, `sys_fee` to the system
wallet, and `sub_shares` to the sub-payee, so the balance deltas over the
four wallet rows sum to zero. -/
theorem conservation_of_funds (k : TransactionKind) (t : Transaction)
    (payer payer1 : Wallet) (mac : HMacTag) (st : CommitState)
    (pc sc bc : Bool) (t1 : Transaction) (st1 : CommitState)
    (hamt : 0 < t.amount)
    (hkind : t.kind = k.as_ref)
    (hfs : k.fee_and_shares t.amount payer.credits t.sub_payee.isSome
            = (t.sys_fee, t.sub_shares))
    (hded : k.sub_payer_balance payer t.amount = .ok payer1)
    (h1 : st.txn_status = 1)
    (hcommit : t.commit mac st pc sc bc = (.ok t1, st1)) :
    payer1.balance = payer.balance - t.amount
    ∧ (payer1.balance - payer.balance)
        + (st1.payee_wallet.balance - st.payee_wallet.balance)
        + (st1.sys_wallet.balance - st.sys_wallet.balance)
        + (st1.sub_wallet.balance - st.sub_wallet.balance) = 0 := by
  have hpayer := sub_payer_balance_balance k payer t.amount payer1 hded
  obtain ⟨wa, wb, wc, ha, hb, hc, hst1, ht1⟩ :=
    commit_ok_of_status1 t k mac st pc sc bc t1 st1 hkind h1 hcommit
  have hwa := commit_payee_task_balance t k mac st.payee_wallet pc wa ha
  have hwb := commit_sys_task_balance t mac st.payee_wallet.is_system
    st.sys_wallet sc wb hb
  have hwc := commit_sub_task_balance t mac st.sub_wallet bc wc hc
  obtain ⟨hn1, hn2, hn3⟩ := fee_and_shares_nonneg k t.amount payer.credits
    t.sub_payee.isSome (by omega)
  have hfee : t.sys_fee
      = (k.fee_and_shares t.amount payer.credits t.sub_payee.isSome).1 := by
    rw [hfs]
  have hsh : t.sub_shares
      = (k.fee_and_shares t.amount payer.credits t.sub_payee.isSome).2 := by
    rw [hfs]
  have hpw : st1.payee_wallet = wa := by rw [hst1]
  have hsw : st1.sys_wallet = wb := by rw [hst1]
  have hbw : st1.sub_wallet = wc := by rw [hst1]
  refine ⟨hpayer, ?_⟩
  rw [hpw, hsw, hbw]
  by_cases hsys : st.payee_wallet.is_system
  · rw [if_pos hsys] at hwa
    rw [if_neg (fun hh => hh.2 hsys)] at hwb
    split_ifs at hwc <;> omega
  · rw [if_neg hsys] at hwa
    by_cases hfeepos : t.sys_fee > 0
    · rw [if_pos ⟨hfeepos, hsys⟩] at hwb
      split_ifs at hwc <;> omega
    · rw [if_neg (fun hh => hfeepos hh.1)] at hwb
      split_ifs at hwc <;> omega

/-- Concrete state for the C1 witness: a Sponsor of 100 by payer uid 1
(credits 10000, so `sys_fee = 27`) to payee uid 2 with sub-payee uid 3
(`sub_shares = 36`), committed from status 1. -/
def c1_txn : Transaction :=
  { uid := 1, id := 5, sequence := 0, payee := 2, sub_payee := some 3,
    status := 1, kind := "sponsor", amount := 100, sys_fee := 27,
    sub_shares := 36, description := "", payload := [] }

/-- The payer wallet for the C1 witness. -/
def c1_payer : Wallet := test_wallet 1 100 50 0 10000

/-- The commit-side rows for the C1 witness. -/
def c1_state : CommitState :=
  { txn_status := 1, payee_wallet := Wallet.with_pk 2,
    sys_wallet := Wallet.with_pk SYS_ID, sub_wallet := Wallet.with_pk 3 }

theorem conservation_of_funds_witness :
    ∃ payer1 t1 st1,
      TransactionKind.sponsor.sub_payer_balance c1_payer 100 = .ok payer1
      ∧ c1_txn.commit test_mac c1_state true true true = (.ok t1, st1)
      ∧ payer1.balance = c1_payer.balance - 100
      ∧ (payer1.balance - c1_payer.balance)
          + (st1.payee_wallet.balance - c1_state.payee_wallet.balance)
          + (st1.sys_wallet.balance - c1_state.sys_wallet.balance)
          + (st1.sub_wallet.balance - c1_state.sub_wallet.balance) = 0 := by
  refine ⟨_, _, _, rfl, rfl, ?_⟩
  exact conservation_of_funds .sponsor c1_txn c1_payer _ test_mac c1_state
    true true true _ _ (by decide) rfl (by decide) rfl rfl rfl

/-! ### Claim C5: commit idempotence on a committed row -/

/-- C5: invoking `commit` on a row whose stored status is 3 succeeds and
changes no wallet (the entire state is returned unchanged).  The row is one
the system produced, so its kind parses, its payee passes the kind check,
and positive `sub_shares` come with a sub-payee (prepare establishes all
three; commit panics on the last one by design). -/
theorem commit_idempotent_on_committed (t : Transaction) (k : TransactionKind)
    (mac : HMacTag) (st : CommitState) (pc sc bc : Bool)
    (hk : TransactionKind.from_str t.kind = some k)
    (hp : k.check_payee t.payee = .ok ())
    (hsub : ¬ (t.sub_shares > 0 ∧ t.sub_payee = none))
    (h3 : st.txn_status = 3) :
    t.commit mac st pc sc bc = (.ok { t with status := 3 }, st) := by
  unfold Transaction.commit
  simp only [hk, hp]
  rw [if_neg hsub, if_neg (by omega), if_pos h3]

/-- Concrete committed row and state for the C5 witness. -/
def c5_txn : Transaction :=
  { uid := 1, id := 5, sequence := 0, payee := SYS_ID, sub_payee := none,
    status := 3, kind := "spend", amount := 7, sys_fee := 0, sub_shares := 0,
    description := "", payload := [] }

/-- Concrete wallet rows for the C5 witness. -/
def c5_state : CommitState :=
  { txn_status := 3, payee_wallet := Wallet.with_pk SYS_ID,
    sys_wallet := Wallet.with_pk SYS_ID, sub_wallet := Wallet.with_pk 2 }

theorem commit_idempotent_on_committed_witness :
    c5_txn.commit test_mac c5_state true true true
      = (.ok { c5_txn with status := 3 }, c5_state) :=
  commit_idempotent_on_committed c5_txn .spend test_mac c5_state true true true
    rfl rfl (by decide) rfl

/-! ### Claim C6: partial-commit recovery (corrected) -/

/-- Concrete status-2 row for the C6 counterexample: a well-formed Spend
transaction left at status 2. -/
def c6_txn : Transaction :=
  { uid := 1, id := 5, sequence := 0, payee := SYS_ID, sub_payee := none,
    status := 2, kind := "spend", amount := 7, sys_fee := 0, sub_shares := 0,
    description := "", payload := [] }

/-- Concrete wallet rows (stored transaction status 2) for C6. -/
def c6_state : CommitState :=
  { txn_status := 2, payee_wallet := Wallet.with_pk SYS_ID,
    sys_wallet := Wallet.with_pk SYS_ID, sub_wallet := Wallet.with_pk 2 }

/-- C6 counterexample: re-invoking `commit` on a status-2 row does not
re-run the sub-tasks — it fails with a status-conflict error and leaves
every wallet row untouched, contradicting the claim that the sub-tasks are
re-run. -/
theorem commit_status2_cex :
    c6_txn.commit test_mac c6_state true true true
      = (.error .statusConflict, c6_state) := by decide

/-- C6 amended: a re-invocation of `commit` on a status-2 row detects
`status != 1`, and since the stored status is not 3 either, it returns a
status-conflict error without running any sub-task: no wallet row changes.
(The code contains no check of `wallet.txn == txn.id`; recovery of a
partial commit is left to external reconciliation.) -/
theorem commit_status2_rejected (t : Transaction) (mac : HMacTag)
    (st : CommitState) (pc sc bc : Bool) (h2 : st.txn_status = 2) :
    (∀ t1, (t.commit mac st pc sc bc).1 ≠ .ok t1)
    ∧ (t.commit mac st pc sc bc).2 = st := by
  suffices hshape : ∃ e, t.commit mac st pc sc bc = (.error e, st) by
    obtain ⟨e, he⟩ := hshape
    refine ⟨fun t1 => ?_, by rw [he]⟩
    rw [he]
    simp
  unfold Transaction.commit
  cases hk : TransactionKind.from_str t.kind with
  | none => exact ⟨_, rfl⟩
  | some k =>
    cases hcp : k.check_payee t.payee with
    | error e => simp only [hcp]; exact ⟨_, rfl⟩
    | ok u =>
      simp only [hcp]
      split_ifs with hpanic h1 h3
      · exact ⟨_, rfl⟩
      · omega
      · omega
      · exact ⟨_, rfl⟩

theorem commit_status2_rejected_witness :
    (∀ t1, (c6_txn.commit test_mac c6_state true true true).1 ≠ .ok t1)
    ∧ (c6_txn.commit test_mac c6_state true true true).2 = c6_state :=
  commit_status2_rejected c6_txn test_mac c6_state true true true rfl

/-! ### Claims C3 and C10: credit bootstrap -/

/-- Concrete credit of kind "award" for the C3 counterexample. -/
def c3_credit : Credit :=
  { uid := 1, txn := 9, kind := "award", amount := 5, description := "" }

/-- Concrete uninitialized (credits = 0) non-system wallet for C3. -/
def c3_wallet : Wallet := test_wallet 1 0 0 0 0

/-- C3 counterexample: an "award" credit with positive amount on a
non-system wallet whose credits are 0 is NOT appended — `Credit::save`
silently succeeds with no row inserted and the wallet unchanged ("award"
is not the bootstrap kind; "init" is). -/
theorem credit_award_on_uninitialized_skipped :
    c3_credit.kind = CreditKind.award.as_ref
    ∧ c3_wallet.credits = 0 ∧ c3_wallet.uid ≠ SYS_ID ∧ 0 < c3_credit.amount
    ∧ Credit.save c3_credit c3_wallet false = .ok (c3_credit, c3_wallet, false) := by
  refine ⟨rfl, rfl, by decide, by decide, by decide⟩

/-- On an uninitialized non-system wallet, saving an "init" credit appends
it with the amount forced to 10 and bumps the credits counter to 10. -/
theorem credit_save_init_eq (c : Credit) (w : Wallet)
    (hns : c.uid ≠ SYS_ID) (hcr : w.credits = 0) (hamt : 0 < c.amount)
    (hinit : c.kind = CreditKind.init.as_ref) :
    Credit.save c w false
      = .ok ({ c with amount := 10 }, { w with credits := 10 }, true) := by
  have h1 : ¬ c.amount ≤ 0 := by omega
  have h3 : ¬ (c.kind = CreditKind.init.as_ref ∧ w.credits > 0) := by
    rintro ⟨-, hgt⟩; omega
  have h4 : ¬ (w.credits = 0 ∧ ¬ c.kind = CreditKind.init.as_ref) := by
    rintro ⟨-, hne⟩; exact hne hinit
  simp [Credit.save, if_neg h1, if_neg hns, if_neg h3, if_neg h4,
    if_pos hinit, hcr]

/-- On an uninitialized non-system wallet, saving a credit of any
non-bootstrap kind silently succeeds without inserting a row and without
touching the wallet. -/
theorem credit_save_skip_eq (c : Credit) (w : Wallet)
    (hns : c.uid ≠ SYS_ID) (hcr : w.credits = 0) (hamt : 0 < c.amount)
    (hnot : c.kind ≠ CreditKind.init.as_ref) (row_exists : Bool) :
    Credit.save c w row_exists = .ok (c, w, false) := by
  have h3 : ¬ (c.kind = CreditKind.init.as_ref ∧ w.credits > 0) :=
    fun hh => hnot hh.1
  have h4 : w.credits = 0 ∧ ¬ c.kind = CreditKind.init.as_ref := ⟨hcr, hnot⟩
  unfold Credit.save
  rw [if_neg (by omega), if_neg hns, if_neg h3, if_pos h4]

/-- C3 amended: on a non-system wallet with `credits = 0`, the bootstrap
kind is "Init" (serialized "init"): an "init" credit is appended with its
amount forced to 10 and the wallet credits bumped to 10; a credit of every
other kind silently returns success without inserting a row and without
changing the wallet. -/
theorem credit_bootstrap_init_only (c : Credit) (w : Wallet)
    (hns : c.uid ≠ SYS_ID) (hcr : w.credits = 0) (hamt : 0 < c.amount) :
    (c.kind = CreditKind.init.as_ref →
      Credit.save c w false
        = .ok ({ c with amount := 10 }, { w with credits := 10 }, true))
    ∧ (c.kind ≠ CreditKind.init.as_ref →
      ∀ row_exists, Credit.save c w row_exists = .ok (c, w, false)) :=
  ⟨fun hinit => credit_save_init_eq c w hns hcr hamt hinit,
   fun hnot row_exists => credit_save_skip_eq c w hns hcr hamt hnot row_exists⟩

/-- Concrete "init" credit with a caller-supplied amount of 55 for the C3
witness. -/
def c3_init_credit : Credit :=
  { uid := 1, txn := 9, kind := "init", amount := 55, description := "" }

theorem credit_bootstrap_init_only_witness :
    Credit.save c3_init_credit c3_wallet false
      = .ok ({ c3_init_credit with amount := 10 },
          { c3_wallet with credits := 10 }, true)
    ∧ Credit.save c3_credit c3_wallet true = .ok (c3_credit, c3_wallet, false) :=
  ⟨(credit_bootstrap_init_only c3_init_credit c3_wallet (by decide) rfl
      (by decide)).1 rfl,
   (credit_bootstrap_init_only c3_credit c3_wallet (by decide) rfl
      (by decide)).2 (by decide) true⟩

/-- C10: an "init" credit saved on a non-system wallet with `credits = 0`
stores the credit with its amount forced to exactly 10, whatever amount the
caller supplied, and the counter bump adds exactly 10 to the wallet
credits. -/
theorem credit_init_amount_forced_ten (c : Credit) (w : Wallet)
    (hns : c.uid ≠ SYS_ID) (hcr : w.credits = 0)
    (hinit : c.kind = CreditKind.init.as_ref)
    (r : Credit × Wallet × Bool) (h : Credit.save c w false = .ok r) :
    r.1.amount = 10 ∧ r.2.1.credits = w.credits + 10 ∧ r.2.2 = true := by
  by_cases hamt : 0 < c.amount
  · rw [credit_save_init_eq c w hns hcr hamt hinit] at h
    have h5 := Except.ok.inj h
    subst h5
    exact ⟨rfl, by simp [hcr], rfl⟩
  · exfalso
    unfold Credit.save at h
    rw [if_pos (by omega)] at h
    cases h

theorem credit_init_amount_forced_ten_witness :
    ∃ r, Credit.save c3_init_credit c3_wallet false = .ok r
      ∧ r.1.amount = 10 ∧ r.2.1.credits = c3_wallet.credits + 10 ∧ r.2.2 = true := by
  refine ⟨_, rfl, ?_⟩
  exact credit_init_amount_forced_ten c3_init_credit c3_wallet (by decide) rfl
    rfl _ rfl

/-! ### Claim C9: charge failure sentinel -/

/-- Appending a non-status column adds no status entry. -/
theorem status_mem_append (cols : ColsMap) (kname : String) (v x : CqlVal)
    (hk : kname ≠ "status") (h : ("status", x) ∈ cols ++ [(kname, v)]) :
    ("status", x) ∈ cols := by
  rcases List.mem_append.mp h with h1 | h1
  · exact h1
  · simp at h1
    exact absurd h1.1.symm hk

/-- `add_col` with a non-status column name adds no status entry. -/
theorem add_col_status_mem (cols : ColsMap) (kname : String)
    (o : Option CqlVal) (x : CqlVal) (hk : kname ≠ "status")
    (h : ("status", x) ∈ add_col cols kname o) : ("status", x) ∈ cols := by
  cases o with
  | none => exact h
  | some v => exact status_mem_append cols kname v x hk h

/-- The middle columns of `into` add no status entry. -/
theorem into_cols_mid_status_mem (inp : UpdateChargeInput) (cols0 : ColsMap)
    (x : CqlVal) (h : ("status", x) ∈ into_cols_mid inp cols0) :
    ("status", x) ∈ cols0 := by
  unfold into_cols_mid at h
  exact add_col_status_mem _ _ _ _ (by decide)
    (add_col_status_mem _ _ _ _ (by decide)
      (add_col_status_mem _ _ _ _ (by decide)
        (add_col_status_mem _ _ _ _ (by decide)
          (add_col_status_mem _ _ _ _ (by decide) h))))

/-- Everything after the status step of `into` adds no status entry. -/
theorem into_cols_rest_status_mem (inp : UpdateChargeInput)
    (cols0 cols : ColsMap) (h : into_cols_rest inp cols0 = .ok cols)
    (x : CqlVal) (hx : ("status", x) ∈ cols) : ("status", x) ∈ cols0 := by
  unfold into_cols_rest at h
  cases hfc : inp.failure_code with
  | some s =>
    rw [hfc] at h
    split_ifs at h
    have h2 := Except.ok.inj h
    subst h2
    exact into_cols_mid_status_mem inp cols0 x
      (status_mem_append _ _ _ _ (by decide)
        (add_col_status_mem _ _ _ _ (by decide) hx))
  | none =>
    rw [hfc] at h
    have h2 := Except.ok.inj h
    subst h2
    exact into_cols_mid_status_mem inp cols0 x
      (add_col_status_mem _ _ _ _ (by decide) hx)

/-- Every status entry of a successfully built `ColumnsMap` comes from the
guarded status step, so it carries a requested status that is neither `-1`
nor above `1`. -/
theorem into_cols_status (inp : UpdateChargeInput) (cols : ColsMap)
    (h : inp.into_cols = .ok cols) (v : CqlVal)
    (hv : ("status", v) ∈ cols) :
    ∃ s, inp.status = some s ∧ v = CqlVal.int s ∧ ¬ (s = -1 ∨ s > 1) := by
  unfold UpdateChargeInput.into_cols at h
  cases hst : inp.status with
  | none =>
    simp only [hst] at h
    exfalso
    cases hrest : into_cols_rest inp [] <;> simp only [hrest] at h
    · cases h
    · split_ifs at h
      have h2 := Except.ok.inj h
      subst h2
      exact absurd (into_cols_rest_status_mem inp [] _ hrest v hv) (by simp)
  | some s =>
    by_cases hguard : s = -1 ∨ s > 1
    · simp only [hst, if_pos hguard] at h
      cases h
    · simp only [hst, if_neg hguard] at h
      cases hrest : into_cols_rest inp [("status", CqlVal.int s)] <;>
        simp only [hrest] at h
      · cases h
      · split_ifs at h
        have h2 := Except.ok.inj h
        subst h2
        have hmem := into_cols_rest_status_mem inp _ _ hrest v hv
        simp at hmem
        exact ⟨s, rfl, hmem, hguard⟩

/-- A column application touches `status` only through a
`("status", int i)` entry. -/
theorem apply_col_status (c : Charge) (f : String) (v : CqlVal) :
    (c.apply_col f v).status = c.status
    ∨ ∃ i, f = "status" ∧ v = CqlVal.int i ∧ (c.apply_col f v).status = i := by
  cases v with
  | int i =>
    simp only [Charge.apply_col]
    split_ifs with h1 h2 h3
    · exact Or.inr ⟨i, h1, rfl, rfl⟩
    all_goals exact Or.inl rfl
  | str s => simp only [Charge.apply_col]; split_ifs <;> exact Or.inl rfl
  | blob b => simp only [Charge.apply_col]; split_ifs <;> exact Or.inl rfl
  | idv x => simp only [Charge.apply_col]; split_ifs <;> exact Or.inl rfl

/-- Folding a `ColumnsMap` with no `status = -1` entry never drives the
status column to `-1`. -/
theorem foldl_apply_status (cols : ColsMap) (c : Charge)
    (hok : ∀ v, ("status", v) ∈ cols → v ≠ CqlVal.int (-1))
    (hc : c.status ≠ -1) :
    (cols.foldl (fun acc p => acc.apply_col p.1 p.2) c).status ≠ -1 := by
  induction cols generalizing c with
  | nil => simpa using hc
  | cons p ps ih =>
    simp only [List.foldl_cons]
    apply ih
    · intro v hv
      exact hok v (List.mem_cons_of_mem p hv)
    · rcases apply_col_status c p.1 p.2 with heq | ⟨i, hf, hv, hst⟩
      · rw [heq]; exact hc
      · rw [hst]
        intro hi
        subst hi
        have hp : p = ("status", CqlVal.int (-1)) := Prod.ext hf hv
        exact hok (CqlVal.int (-1)) (hp ▸ List.mem_cons_self p ps) rfl

/-- C9: whatever columns and expected status the caller supplies to the
charge-update endpoint, the built `ColumnsMap` never carries
`status = -1`, and consequently `Charge::update` never moves the stored
status to the reserved `-1` failure sentinel. -/
theorem charge_update_never_sets_failure_sentinel (inp : UpdateChargeInput)
    (cols : ColsMap) (h : inp.into_cols = .ok cols) :
    (∀ v, ("status", v) ∈ cols → v ≠ CqlVal.int (-1))
    ∧ (∀ (c : Charge) (now : Int) (c1 : Charge),
        Charge.update c cols inp.current_status now = .ok c1 →
        c.status ≠ -1 → c1.status ≠ -1) := by
  have hok : ∀ v, ("status", v) ∈ cols → v ≠ CqlVal.int (-1) := by
    intro v hv
    obtain ⟨s, hs, hv2, hguard⟩ := into_cols_status inp cols h v hv
    subst hv2
    intro heq
    have : s = -1 := by injection heq
    exact hguard (Or.inl this)
  refine ⟨hok, ?_⟩
  intro c now c1 hu hc
  unfold Charge.update at hu
  split_ifs at hu
  have h2 := Except.ok.inj hu
  subst h2
  exact foldl_apply_status cols c hok hc

/-- Concrete charge-update input for the C9 witness: requested status `-2`
with a failure code, expected status 1. -/
def c9_input : UpdateChargeInput :=
  { current_status := 1, status := some (-2), currency := none,
    amount := none, amount_refunded := none, charge_id := none,
    charge_payload := none, failure_code := some "card_declined",
    failure_msg := none }

/-- The columns built from `c9_input`. -/
def c9_cols : ColsMap :=
  [("status", CqlVal.int (-2)), ("failure_code", CqlVal.str "card_declined")]

/-- A stored charge row at status 1 for the C9 witness. -/
def c9_charge : Charge :=
  { uid := 1, id := 2, status := 1, updated_at := 0, expire_at := 0,
    quantity := 50, currency := "", amount := 0, amount_refunded := 0,
    provider := "stripe", charge_id := "", charge_payload := [],
    txn := none, txn_refunded := none, failure_code := "", failure_msg := "" }

theorem charge_update_never_sets_failure_sentinel_witness :
    ∃ c1, Charge.update c9_charge c9_cols c9_input.current_status 77 = .ok c1
      ∧ c1.status ≠ -1 := by
  refine ⟨_, rfl, ?_⟩
  exact (charge_update_never_sets_failure_sentinel c9_input c9_cols rfl).2
    c9_charge 77 _ rfl (by decide)

end Walletbase
